import Mathlib

/-!
Verification of the flight-school audit program.

This development gives a shallow embedding of the rule-evaluation core of
the auditor (modules `violations.py`, `pilots.py`, `endorsements.py`,
`inspections.py`, plus the lookup helpers of `utils.py`) and settles the
frozen claims about it.

Modelling conventions, applied uniformly:

* Timestamps are rationals, measured in hours.  The source parses date
  strings with `utils.str_to_time` (returning `None` on failure) and then
  compares timezone-aware datetimes; the embedding works with the parsed
  values directly.  A date field that may be empty or unparseable in the
  source is an `Option ℚ` here; fields whose parse failure would crash the
  source before the behaviour under study is reached (lesson takeoff and
  landing times, repair shop-entry dates, which are used as sort keys) are
  plain `ℚ`.
* Python float arithmetic is modelled by exact rational arithmetic; the
  boundary semantics the claims are about (`<` versus `≤` at 100 hours,
  365 days, minimum visibility and so on) are identical.
* `timedelta.days` is the floor of the difference measured in days;
  with hour-valued rationals this is `⌊d / 24⌋`.
* A Python function that can raise on its documented input domain is
  embedded in `Except Unit`; `Except.error ()` marks the raise
  (`TypeError`, `KeyError`).  A Python `None` result is `Option.none`.
* CSV rows are named records; positional indices (`row[3]` etc.) become
  named fields.  File reading is the excluded I/O layer, so the three
  violation scans take the already-loaded tables as parameters, and the
  header-row handling of the source (`lessons[1:]`, `minimums[1:]`) is
  kept wherever the scanned table still contains its header.
* `utils.daytime` performs a calendar/sunrise-table lookup that has no
  shallow counterpart in this time model; the weather scan takes the
  day/night decision as a function parameter (the source passes its result
  straight into `get_minimums`, where a `None` is already falsy, so the
  parameter is a `Bool`).
-/

/-- A parsed row of `students.csv`: identifier plus the seven qualification
dates (joined, solo, license, 50 hours, instrument, advanced, multiengine).
An empty or unparseable date is `none`, matching `str_to_time`. -/
structure StudentRow where
  id : String
  joined : Option ℚ
  solo : Option ℚ
  license : Option ℚ
  hours50 : Option ℚ
  instrument : Option ℚ
  advanced : Option ℚ
  multiengine : Option ℚ
deriving DecidableEq

/-- A parsed row of `instructors.csv`. -/
structure InstructorRow where
  id : String
  lastname : String
  firstname : String
  cfi : String
  cfii : String
  mei : String
deriving DecidableEq

/-- A parsed row of `fleet.csv`.  `annual` is the last annual-inspection
date (possibly unparseable, hence `Option`), `hours` the hours since the
last 100-hour service (the source substitutes `0.0` for an empty cell). -/
structure PlaneRow where
  tail : String
  ptype : String
  capability : String
  advanced : String
  multiengine : String
  annual : Option ℚ
  hours : ℚ
deriving DecidableEq

/-- A parsed row of `repairs.csv`.  The shop-entry date is also used as a
sort key by the inspection engine, so it is kept total here. -/
structure RepairRow where
  tail : String
  inDate : ℚ
  outDate : Option ℚ
  desc : String
deriving DecidableEq

/-- A parsed row of `lessons.csv`. -/
structure LessonRow where
  student : String
  plane : String
  instructor : String
  takeoff : ℚ
  landing : ℚ
  filed : String
  area : String
deriving DecidableEq

/-! ### pilots.py: certification classification -/

/-- Python `str.strip()`: leading and trailing whitespace removed,
written over the character list so that it evaluates definitionally
(`String.trim` is positional and does not reduce). -/
def py_strip (s : String) : String :=
  String.mk (((s.data.dropWhile Char.isWhitespace).reverse.dropWhile
    Char.isWhitespace).reverse)

/-- Python `str.upper()` over the character list (the data is ASCII). -/
def py_upper (s : String) : String :=
  String.mk (s.data.map Char.toUpper)

/-- Python `str.lower()` over the character list (the data is ASCII). -/
def py_lower (s : String) : String :=
  String.mk (s.data.map Char.toLower)

def PILOT_INVALID : ℤ := -1

def PILOT_NOVICE : ℤ := 0

def PILOT_STUDENT : ℤ := 1

def PILOT_CERTIFIED : ℤ := 2

def PILOT_50_HOURS : ℤ := 3

/-- A qualification date is satisfied at `takeoff` when it is present,
parsed, and not after `takeoff` (the source tests
`date is not None and takeoff >= date`). -/
def date_ok (takeoff : ℚ) (d : Option ℚ) : Bool :=
  match d with
  | none => false
  | some t => decide (t ≤ takeoff)

/-- `pilots.get_certification` (pilots.py lines 57-119): invalid before the
join date (or when it is absent), otherwise the strictest satisfied
threshold among 50-hours, license, solo wins, defaulting to novice. -/
def get_certification (takeoff : ℚ) (student : StudentRow) : ℤ :=
  match student.joined with
  | none => PILOT_INVALID
  | some j =>
    if takeoff < j then PILOT_INVALID
    else if date_ok takeoff student.hours50 then PILOT_50_HOURS
    else if date_ok takeoff student.license then PILOT_CERTIFIED
    else if date_ok takeoff student.solo then PILOT_STUDENT
    else if j ≤ takeoff then PILOT_NOVICE
    else PILOT_INVALID

/-! ### violations.py: weather measurements and the weather classifier -/

/-- A visibility measurement (violations.py `bad_visibility` docstring):
either the string `'unavailable'`, a dictionary with optional `minimum`
(a missing key and an explicit `None` both fall back to `prevailing`),
required `prevailing` and `units`, or any other shape, which the source
treats conservatively as a violation (`malformed`; this also covers the
`None` produced by `weather.get('visibility')` on a missing key). -/
inductive Visibility where
  | unavailable : Visibility
  | reading (minimum : Option ℚ) (prevailing : ℚ) (units : String) : Visibility
  | malformed : Visibility
deriving DecidableEq

/-- A wind measurement: `'calm'`, `'unavailable'`, a dictionary whose four
keys are all read with `.get` and hence optional, or an unrecognized shape. -/
inductive Wind where
  | calm : Wind
  | unavailable : Wind
  | reading (speed : Option ℚ) (gusts : Option ℚ) (crosswind : Option ℚ)
      (units : Option String) : Wind
  | malformed : Wind
deriving DecidableEq

/-- One cloud layer of a sky reading.  `type` and `units` are read with
`.get` (missing keys become `none`); `height` is required by the
documented precondition and is only read for qualifying layers. -/
structure CloudLayer where
  ltype : Option String
  height : ℚ
  units : Option String
deriving DecidableEq

/-- A ceiling measurement: `'clear'`, `'unavailable'`, a list of cloud
layers, or an unrecognized shape. -/
inductive Sky where
  | clear : Sky
  | unavailable : Sky
  | layers (ls : List CloudLayer) : Sky
  | malformed : Sky
deriving DecidableEq

/-- A weather report: the three sub-readings used by the classifier
(other keys of the source dictionary are ignored by it). -/
structure Weather where
  visibility : Visibility
  wind : Wind
  sky : Sky
deriving DecidableEq

/-- `violations.bad_visibility` (violations.py lines 40-94). -/
def bad_visibility (visibility : Visibility) (minimum : ℚ) : Bool :=
  match visibility with
  | Visibility.unavailable => true
  | Visibility.reading vmin prevailing units =>
    let value := match vmin with
      | some v => v
      | none => prevailing
    let value := if units = "FT" then value / 5280 else value
    decide (value < minimum)
  | Visibility.malformed => true

/-- `violations.bad_winds` (violations.py lines 97-171).  1 MPS is taken,
as in the source, to be exactly 1.94384 knots. -/
def bad_winds (winds : Wind) (maxwind maxcross : ℚ) : Bool :=
  match winds with
  | Wind.calm => false
  | Wind.unavailable => true
  | Wind.reading sp g cw u =>
    let speed := sp.getD 0
    let gusts := g.getD speed
    let crosswind := cw.getD 0
    let units := u.getD "KT"
    let speed := if units = "MPS" then speed * (194384 / 100000) else speed
    let gusts := if units = "MPS" then gusts * (194384 / 100000) else gusts
    let crosswind := if units = "MPS" then crosswind * (194384 / 100000) else crosswind
    let worst_wind := max speed gusts
    decide (maxwind < worst_wind ∨ maxcross < crosswind)
  | Wind.malformed => true

/-- `violations.bad_ceiling` (violations.py lines 174-243). -/
def bad_ceiling (ceiling : Sky) (minimum : ℚ) : Bool :=
  match ceiling with
  | Sky.clear => false
  | Sky.unavailable => true
  | Sky.layers ls =>
    let relevant_heights := (ls.filter (fun layer =>
      (layer.ltype = some "broken" ∨ layer.ltype = some "overcast" ∨
        layer.ltype = some "indefinite ceiling") ∧ layer.units = some "FT")).map
      (fun layer => layer.height)
    match relevant_heights with
    | [] => false
    | h :: t => decide (t.foldl min h < minimum)
  | Sky.malformed => true

/-- `violations.get_weather_report` (violations.py lines 246-346): the
weather table is the parsed dictionary, keys already converted to times.
An exact key match is preferred; otherwise the latest report strictly
before takeoff; `none` when neither exists. -/
def get_weather_report (takeoff : ℚ) (weather : List (ℚ × Weather)) : Option Weather :=
  match weather.find? (fun kv => kv.1 = takeoff) with
  | some kv => some kv.2
  | none =>
    let closest := weather.foldl (fun acc kv =>
      if kv.1 < takeoff then
        match acc with
        | none => some kv
        | some best => if best.1 < kv.1 then some kv else acc
      else acc) none
    closest.map (fun kv => kv.2)

/-- `violations.get_weather_violation` (violations.py lines 349-433).
The second parameter is the Python value the caller passes: either a list
(of, normally, four floats) or `None`.  A `None` weather reading yields
`'Unknown'` before the minimums are touched; otherwise the source unpacks
`minimums` into four variables, which raises `TypeError` (modelled as
`Except.error ()`) unless it is a four-element list.  The fall-through
`Except.ok none` mirrors the implicit `return None` of the Python
function. -/
def get_weather_violation (weather : Option Weather) (minimums : Option (List ℚ)) :
    Except Unit (Option String) :=
  match weather with
  | none => Except.ok (some "Unknown")
  | some w =>
    match minimums with
    | some [min_ceiling, min_visibility, max_wind, max_crosswind] =>
      let vis := bad_visibility w.visibility min_visibility
      let wind := bad_winds w.wind max_wind max_crosswind
      let ceil := bad_ceiling w.sky min_ceiling
      let count := (if vis then 1 else 0) + (if wind then 1 else 0) +
        (if ceil then 1 else 0)
      if count = 0 then Except.ok (some "")
      else if 1 < count then Except.ok (some "Weather")
      else if vis then Except.ok (some "Visibility")
      else if wind then Except.ok (some "Winds")
      else if ceil then Except.ok (some "Ceiling")
      else Except.ok none
    | _ => Except.error ()

/-! ### pilots.py: minimums resolver -/

/-- A row of `minimums.csv`.  The four string columns are kept as strings;
the four numeric columns are the parsed floats that `get_best_value`
obtains with `float(row[index])`. -/
structure MinRow where
  category : String
  conditions : String
  marea : String
  mtime : String
  ceiling : ℚ
  visibility : ℚ
  wind : ℚ
  crosswind : ℚ
deriving DecidableEq

/-- The row-matching test of `pilots.get_minimums` (pilots.py lines
400-442), written as one conjunction: each `continue` of the source is the
failure of the corresponding conjunct.  A category string other than the
four known ones passes the category axis, exactly as in the source's
`if/elif` chain. -/
def matches_row (cert : ℤ) (area : String) (instructed vfr daytime : Bool)
    (row : MinRow) : Bool :=
  (if row.category = "Dual" then instructed
   else if row.category = "50 Hours" then decide (cert = PILOT_50_HOURS)
   else if row.category = "Certified" then decide (PILOT_CERTIFIED ≤ cert)
   else if row.category = "Student" then decide (PILOT_STUDENT ≤ cert)
   else true) &&
  (if vfr then decide (row.conditions = "VMC") else decide (row.conditions = "IMC")) &&
  (if row.marea = "Any" then true
   else if row.marea = "Local" then
     decide (area = "Pattern" ∨ area = "Practice Area" ∨ area = "Local")
   else decide (row.marea = area)) &&
  (if daytime then decide (row.mtime = "Day") else decide (row.mtime = "Night"))

/-- `pilots.get_best_value` (pilots.py lines 263-300), applied to the
already-extracted column of floats: the largest value when `maximum`,
else the smallest.  Python's `max`/`min` raise on an empty list; the
caller guards against that, so the empty case (returning 0) is
unreachable from `get_minimums`. -/
def get_best_value (values : List ℚ) (maximum : Bool) : ℚ :=
  match values with
  | [] => 0
  | v :: vs => vs.foldl (fun a b => if maximum then max a b else min a b) v

/-- `pilots.get_minimums` (pilots.py lines 303-455): drop the header row,
keep the rows matching on all four axes, return `None` when none match,
otherwise the elementwise best values (least ceiling and visibility,
greatest wind and crosswind) as a four-element list. -/
def get_minimums (cert : ℤ) (area : String) (instructed vfr daytime : Bool)
    (minimums : List MinRow) : Option (List ℚ) :=
  let data := minimums.drop 1
  let ms := data.filter (matches_row cert area instructed vfr daytime)
  if ms.isEmpty then none
  else some [get_best_value (ms.map (fun r => r.ceiling)) false,
             get_best_value (ms.map (fun r => r.visibility)) false,
             get_best_value (ms.map (fun r => r.wind)) true,
             get_best_value (ms.map (fun r => r.crosswind)) true]

/-! ### utils.py lookups and violations.py: the weather scan -/

/-- `utils.get_for_id` (utils.py lines 231-254): first row whose identifier
matches (the returned copy is irrelevant to the semantics). -/
def get_for_id (id : String) (table : List StudentRow) : Option StudentRow :=
  table.find? (fun row => row.id = id)

/-- `violations.list_weather_violations` (violations.py lines 449-544),
with file loading replaced by the already-parsed tables and the
sunrise/sunset oracle `dayF` standing for `utils.daytime` (see the header
comment).  The lesson list is the post-header `lessons[1:]`; rows shorter
than seven cells cannot arise for record-typed rows, so the
`len(lesson) < 7` guard is vacuous here.  A lesson whose student lookup
fails is skipped; otherwise the violation tested by
`get_weather_violation` is appended when it is neither `None` nor the
empty string, and a `TypeError` inside `get_weather_violation` (a
non-`None` report with `None` minimums) aborts the whole scan. -/
def list_weather_violations (students : List StudentRow) (minimums : List MinRow)
    (weather : List (ℚ × Weather)) (dayF : ℚ → Bool) :
    List LessonRow → Except Unit (List (LessonRow × String))
  | [] => Except.ok []
  | lesson :: rest =>
    match get_for_id lesson.student students with
    | none => list_weather_violations students minimums weather dayF rest
    | some student_row =>
      let instructed := decide (lesson.instructor ≠ "")
      let vfr := decide (py_upper (py_strip lesson.filed) = "VFR")
      let daytime := dayF lesson.takeoff
      let cert := get_certification lesson.takeoff student_row
      let mins := get_minimums cert lesson.area instructed vfr daytime minimums
      let weather_report := get_weather_report lesson.takeoff weather
      match get_weather_violation weather_report mins with
      | Except.error e => Except.error e
      | Except.ok v =>
        match list_weather_violations students minimums weather dayF rest with
        | Except.error e => Except.error e
        | Except.ok tail =>
          match v with
          | none => Except.ok tail
          | some s => if s = "" then Except.ok tail else Except.ok ((lesson, s) :: tail)

/-! ### endorsements.py: the endorsement scan -/

/-- `pilots.has_instrument_rating` (pilots.py lines 123-168): rating date
present, parsed and not after takeoff (timezone normalization collapses in
this time model). -/
def has_instrument_rating (takeoff : ℚ) (student : StudentRow) : Bool :=
  date_ok takeoff student.instrument

/-- `pilots.has_advanced_endorsement` (pilots.py lines 171-214). -/
def has_advanced_endorsement (takeoff : ℚ) (student : StudentRow) : Bool :=
  date_ok takeoff student.advanced

/-- `pilots.has_multiengine_endorsement` (pilots.py lines 217-260). -/
def has_multiengine_endorsement (takeoff : ℚ) (student : StudentRow) : Bool :=
  date_ok takeoff student.multiengine

/-- `endorsements.teaches_multiengine` (endorsements.py lines 48-56). -/
def teaches_multiengine (instructor : InstructorRow) : Bool :=
  decide (py_upper (py_strip instructor.mei) = "YES")

/-- `endorsements.teaches_instrument` (endorsements.py lines 59-67). -/
def teaches_instrument (instructor : InstructorRow) : Bool :=
  decide (py_upper (py_strip instructor.cfii) = "YES")

/-- `endorsements.is_advanced` (endorsements.py lines 70-77). -/
def is_advanced (plane : PlaneRow) : Bool :=
  decide (py_upper (py_strip plane.advanced) = "YES")

/-- `endorsements.is_multiengine` (endorsements.py lines 80-87). -/
def is_multiengine (plane : PlaneRow) : Bool :=
  decide (py_upper (py_strip plane.multiengine) = "YES")

/-- `endorsements.is_ifr_capable` (endorsements.py lines 90-100). -/
def is_ifr_capable (plane : PlaneRow) : Bool :=
  decide (py_upper (py_strip plane.capability) = "IFR")

/-- The instructor value the endorsement scan builds for a lesson: the
Python code uses `[]` when the lesson lists no instructor id, `None` when
the id is unknown, and the instructor row otherwise; `bad_endorsement` and
`bad_ifr` only distinguish "a row" from "no row" (`is not None and != []`),
while the solo check compares against `[]` specifically. -/
inductive InstrVal where
  | empty : InstrVal
  | missing : InstrVal
  | found (row : InstructorRow) : InstrVal
deriving DecidableEq

/-- `endorsements.bad_endorsement` (endorsements.py lines 103-140). -/
def bad_endorsement (takeoff : ℚ) (student : StudentRow) (instructor : InstrVal)
    (plane : PlaneRow) : Bool :=
  match instructor with
  | InstrVal.found i => is_multiengine plane && !(teaches_multiengine i)
  | _ =>
    if is_multiengine plane && !(has_multiengine_endorsement takeoff student) then true
    else if is_advanced plane && !(has_advanced_endorsement takeoff student) then true
    else false

/-- `endorsements.bad_ifr` (endorsements.py lines 143-177). -/
def bad_ifr (takeoff : ℚ) (student : StudentRow) (instructor : InstrVal)
    (plane : PlaneRow) : Bool :=
  if !(is_ifr_capable plane) then true
  else match instructor with
    | InstrVal.found i => !(teaches_instrument i)
    | _ => !(has_instrument_rating takeoff student)

/-- Python dictionary built by comprehension over rows keyed by an id
column: a later row with the same key overwrites an earlier one, so lookup
returns the last matching row. -/
def dict_get {α : Type} (key : α → String) (id : String) (rows : List α) : Option α :=
  rows.foldl (fun acc r => if key r = id then some r else acc) none

/-- The label combinator of `endorsements.list_endorsement_violations`
(endorsements.py lines 269-279): `Credentials` only when the solo flag
holds together with at least one of the other two; otherwise the first
flag in the order solo, endorsement, IFR; `none` when no flag holds. -/
def endorsement_label (solo endorsement ifr : Bool) : Option String :=
  if solo && (endorsement || ifr) then some "Credentials"
  else if solo then some "Solo"
  else if endorsement then some "Endorsement"
  else if ifr then some "IFR"
  else none

/-- `endorsements.list_endorsement_violations` (endorsements.py lines
195-281) over the parsed tables.  The source iterates over the raw CSV
rows including the header; the header row's student id is not a key of the
student dictionary, so it is skipped — with record-typed rows the lesson
list is simply the data rows.  Lessons whose student or plane lookup fails
are skipped silently. -/
def list_endorsement_violations (students : List StudentRow)
    (instructors : List InstructorRow) (planes : List PlaneRow) :
    List LessonRow → List (LessonRow × String)
  | [] => []
  | lesson :: rest =>
    let instructor_id := py_strip lesson.instructor
    let student := dict_get (fun s => s.id) lesson.student students
    let instructor : InstrVal :=
      if instructor_id = "" then InstrVal.empty
      else match dict_get (fun i => i.id) instructor_id instructors with
        | some i => InstrVal.found i
        | none => InstrVal.missing
    let plane := dict_get (fun p => p.tail) lesson.plane planes
    match student, plane with
    | some st, some pl =>
      let takeoff := lesson.takeoff
      let solo := (decide (instructor = InstrVal.empty)) &&
        (decide (get_certification takeoff st < PILOT_STUDENT))
      let endorsement := bad_endorsement takeoff st instructor pl
      let ifr := (decide (py_upper (py_strip lesson.filed) = "IFR")) &&
        bad_ifr takeoff st instructor pl
      match endorsement_label solo endorsement ifr with
      | some a => (lesson, a) ::
          list_endorsement_violations students instructors planes rest
      | none => list_endorsement_violations students instructors planes rest
    | _, _ => list_endorsement_violations students instructors planes rest

/-! ### inspections.py: the maintenance/inspection reconciliation engine -/

/-- One entry of the merged per-aircraft timeline of
`inspections.list_inspection_violations`: the Python tuples
`(tail, takeoff, 'lesson', lesson, landing)`,
`(tail, date, 'annual', None, None)` and
`(tail, date, 'repair', None, None)`. -/
inductive InspEvent where
  | lessonEv (tail : String) (takeoff : ℚ) (row : LessonRow) (landing : ℚ) : InspEvent
  | annualEv (tail : String) (date : ℚ) : InspEvent
  | repairEv (tail : String) (date : ℚ) : InspEvent
deriving DecidableEq

def InspEvent.tailOf : InspEvent → String
  | InspEvent.lessonEv t _ _ _ => t
  | InspEvent.annualEv t _ => t
  | InspEvent.repairEv t _ => t

def InspEvent.timeOf : InspEvent → ℚ
  | InspEvent.lessonEv _ tm _ _ => tm
  | InspEvent.annualEv _ d => d
  | InspEvent.repairEv _ d => d

/-- The sort key `lambda x: (x[0], x[1])` of inspections.py line 152:
lexicographic comparison of the tail string and the event time.  Python's
`list.sort` is stable, as is `List.insertionSort` with this total
preorder. -/
def event_le (a b : InspEvent) : Prop :=
  a.tailOf < b.tailOf ∨ (a.tailOf = b.tailOf ∧ a.timeOf ≤ b.timeOf)

instance : DecidableRel event_le := fun a b => by
  unfold event_le; infer_instance

/-- `timedelta.days` of a (possibly negative) hour-valued difference:
Python normalizes a timedelta so that `.days` is the floor of the
difference in whole days. -/
def python_days (d : ℚ) : ℤ := ⌊d / 24⌋

/-- The per-interval grounding test of inspections.py line 167: the source
first requires both bounds to be present (`is not None`); the shop-entry
bound is total here because it doubles as a sort key (see the header
comment), so only the out-date check remains. -/
def in_shop (takeoff landing : ℚ) (period : ℚ × Option ℚ) : Bool :=
  match period with
  | (in_date, some out_date) =>
    (decide (in_date ≤ takeoff) && decide (takeoff < out_date)) ||
    (decide (in_date < landing) && decide (landing ≤ out_date)) ||
    (decide (takeoff ≤ in_date) && decide (out_date ≤ landing))
  | (_, none) => false

/-- The grounded check of inspections.py lines 163-169: the for-loop with
`break` over the plane's shop periods is `List.any`. -/
def grounded_check (takeoff landing : ℚ) (periods : List (ℚ × Option ℚ)) : Bool :=
  periods.any (in_shop takeoff landing)

/-- The annual check of inspections.py lines 170-173:
`current_annual is not None and (time - current_annual).days > 365`. -/
def annual_check (current_annual : Option ℚ) (takeoff : ℚ) : Bool :=
  match current_annual with
  | none => false
  | some a => decide (365 < python_days (takeoff - a))

/-- The 100-hour check of inspections.py lines 174-179:
`current_hours >= 100.0 or (current_hours < 100.0 and
current_hours + duration > 100.0)`. -/
def hundred_hour_check (current_hours duration : ℚ) : Bool :=
  decide (100 ≤ current_hours) ||
    (decide (current_hours < 100) && decide (100 < current_hours + duration))

/-- The body of the lesson arm of the replay loop (inspections.py lines
162-198): evaluate the three checks against the state at takeoff, collapse
the flags to a label (`Maintenance` when more than one holds), and only
then add the flight's duration to the hour accumulator.  Returns the label
(`none` when no flag holds) and the new hour count. -/
def lesson_checks (periods : List (ℚ × Option ℚ)) (current_annual : Option ℚ)
    (current_hours takeoff landing : ℚ) : Option String × ℚ :=
  let grounded := grounded_check takeoff landing periods
  let annual := annual_check current_annual takeoff
  let duration := landing - takeoff
  let inspection := hundred_hour_check current_hours duration
  let annots := (if annual then ["Annual"] else []) ++
    (if inspection then ["Inspection"] else []) ++
    (if grounded then ["Grounded"] else [])
  let label : Option String :=
    if 1 < annots.length then some "Maintenance" else annots.head?
  (label, current_hours + duration)

/-- The replay loop of inspections.py lines 160-204.  `periods` is the
static `plane_state[tail]['in_shop_periods']` table; `ca` and `ch` are the
`current_annual` and `current_hours` dictionaries (`none` = key absent).
A lesson event whose tail is not a key raises `KeyError`
(`plane_state[tail]`, line 165), aborting the scan: `Except.error ()`.
Annual and repair events assign into the dictionaries, which cannot
raise. -/
def replay (periods : String → Option (List (ℚ × Option ℚ))) :
    List InspEvent → (String → Option (Option ℚ)) → (String → Option ℚ) →
    Except Unit (List (LessonRow × String))
  | [], _, _ => Except.ok []
  | InspEvent.lessonEv tail takeoff row landing :: rest, ca, ch =>
    match periods tail with
    | none => Except.error ()
    | some pds =>
      match ca tail, ch tail with
      | some ann, some hrs =>
        let lc := lesson_checks pds ann hrs takeoff landing
        let ch' := fun t => if t = tail then some lc.2 else ch t
        match replay periods rest ca ch' with
        | Except.error e => Except.error e
        | Except.ok out =>
          match lc.1 with
          | some a => Except.ok ((row, a) :: out)
          | none => Except.ok out
      | _, _ => Except.error ()
  | InspEvent.annualEv tail date :: rest, ca, ch =>
    replay periods rest (fun t => if t = tail then some (some date) else ca t)
      (fun t => if t = tail then some 0 else ch t)
  | InspEvent.repairEv tail _date :: rest, ca, ch =>
    replay periods rest ca (fun t => if t = tail then some 0 else ch t)

/-- The last fleet row with the given tail: a Python dictionary built by
repeated assignment `plane_state[tail] = {...}` keeps the last row's
values for a duplicated tail. -/
def last_plane (tail : String) (planes : List PlaneRow) : Option PlaneRow :=
  planes.foldl (fun acc p => if p.tail = tail then some p else acc) none

/-- The fleet tails in dictionary iteration order: insertion order, i.e.
first occurrence. -/
def plane_tails_dedup (planes : List PlaneRow) : List String :=
  planes.foldl (fun acc p => if acc.contains p.tail then acc else acc ++ [p.tail]) []

/-- Classification of a repair row (inspections.py lines 130-139): a
description that case/space-normalizes (`strip().lower()`) to
`'annual inspection'` is an annual event, anything else a generic repair;
either way the event is stamped with the shop-entry date. -/
def repair_event (r : RepairRow) : InspEvent :=
  if py_lower (py_strip r.desc) = "annual inspection" then InspEvent.annualEv r.tail r.inDate
  else InspEvent.repairEv r.tail r.inDate

/-- `inspections.list_inspection_violations` (inspections.py lines
68-204) over the parsed post-header tables.  Builds the per-plane state
(shop periods and repair events only for tails present in the fleet,
lesson events for every lesson), sorts the merged timeline stably by
(tail, time), and replays it. -/
def list_inspection_violations (lessons : List LessonRow) (planes : List PlaneRow)
    (repairs : List RepairRow) : Except Unit (List (LessonRow × String)) :=
  let periods : String → Option (List (ℚ × Option ℚ)) := fun t =>
    (last_plane t planes).map (fun _ =>
      (repairs.filter (fun r => r.tail = t)).map (fun r => (r.inDate, r.outDate)))
  let lesson_events := lessons.map
    (fun l => InspEvent.lessonEv l.plane l.takeoff l l.landing)
  let repair_events := ((plane_tails_dedup planes).map (fun t =>
    (repairs.filter (fun r => r.tail = t)).map repair_event)).flatten
  let events := List.insertionSort event_le (lesson_events ++ repair_events)
  let ca0 : String → Option (Option ℚ) := fun t => (last_plane t planes).map
    (fun p => p.annual)
  let ch0 : String → Option ℚ := fun t => (last_plane t planes).map (fun p => p.hours)
  replay periods events ca0 ch0

/-! ### Theorems -/

lemma pilot_invalid_le_cert (takeoff : ℚ) (s : StudentRow) :
    PILOT_INVALID ≤ get_certification takeoff s := by
  unfold get_certification
  match h : s.joined with
  | none => simp
  | some j =>
    simp only
    split_ifs <;> simp [PILOT_INVALID, PILOT_NOVICE, PILOT_STUDENT,
      PILOT_CERTIFIED, PILOT_50_HOURS]

lemma cert_of_joined_not_ok (takeoff : ℚ) (s : StudentRow)
    (h : date_ok takeoff s.joined = false) :
    get_certification takeoff s = PILOT_INVALID := by
  unfold get_certification
  match hj : s.joined with
  | none => rfl
  | some j =>
    simp only [date_ok, hj, decide_eq_false_iff_not, not_le] at h
    simp [h]

lemma cert_of_joined_ok (takeoff : ℚ) (s : StudentRow)
    (h : date_ok takeoff s.joined = true) :
    get_certification takeoff s =
      if date_ok takeoff s.hours50 then PILOT_50_HOURS
      else if date_ok takeoff s.license then PILOT_CERTIFIED
      else if date_ok takeoff s.solo then PILOT_STUDENT
      else PILOT_NOVICE := by
  unfold get_certification
  match hj : s.joined with
  | none => simp [date_ok, hj] at h
  | some j =>
    simp only [date_ok, hj, decide_eq_true_eq] at h
    simp only [not_lt.mpr h, if_neg (not_lt.mpr h).elim, h]
    split_ifs <;> simp_all

/-- Claim C8: `get_certification` is monotonic.  If at the same takeoff
instant every qualification-date threshold (joined, solo, license,
50-hours) satisfied by pilot B is also satisfied by pilot A, then A's tier
is at least B's under Invalid < Novice < Student < Certified < FiftyHours
(the integer ordering -1 < 0 < 1 < 2 < 3 of the source's constants). -/
theorem claim_C8 (takeoff : ℚ) (A B : StudentRow)
    (hj : date_ok takeoff B.joined = true → date_ok takeoff A.joined = true)
    (hs : date_ok takeoff B.solo = true → date_ok takeoff A.solo = true)
    (hl : date_ok takeoff B.license = true → date_ok takeoff A.license = true)
    (hh : date_ok takeoff B.hours50 = true → date_ok takeoff A.hours50 = true) :
    get_certification takeoff B ≤ get_certification takeoff A := by
  cases hBj : date_ok takeoff B.joined with
  | false =>
    rw [cert_of_joined_not_ok takeoff B hBj]
    exact pilot_invalid_le_cert takeoff A
  | true =>
    rw [cert_of_joined_ok takeoff B hBj, cert_of_joined_ok takeoff A (hj hBj)]
    by_cases hB50 : date_ok takeoff B.hours50 = true
    · rw [if_pos hB50, if_pos (hh hB50)]
    · rw [if_neg hB50]
      by_cases hBl : date_ok takeoff B.license = true
      · rw [if_pos hBl]
        by_cases hA50 : date_ok takeoff A.hours50 = true
        · rw [if_pos hA50]
          simp [PILOT_CERTIFIED, PILOT_50_HOURS]
        · rw [if_neg hA50, if_pos (hl hBl)]
      · rw [if_neg hBl]
        by_cases hBs : date_ok takeoff B.solo = true
        · rw [if_pos hBs]
          by_cases hA50 : date_ok takeoff A.hours50 = true
          · rw [if_pos hA50]
            simp [PILOT_STUDENT, PILOT_50_HOURS]
          · rw [if_neg hA50]
            by_cases hAl : date_ok takeoff A.license = true
            · rw [if_pos hAl]
              simp [PILOT_STUDENT, PILOT_CERTIFIED]
            · rw [if_neg hAl, if_pos (hs hBs)]
        · rw [if_neg hBs]
          split_ifs <;>
            simp [PILOT_NOVICE, PILOT_STUDENT, PILOT_CERTIFIED, PILOT_50_HOURS]

/-- Witness for C8 at a concrete input: pilot B has joined and soloed by
hour 10; pilot A additionally holds a license; A's tier is at least B's. -/
theorem claim_C8_witness :
    (date_ok 10 (StudentRow.mk "B" (some 0) (some 1) none none none none none).joined = true →
      date_ok 10 (StudentRow.mk "A" (some 0) (some 1) (some 2) none none none none).joined = true) ∧
    get_certification 10 (StudentRow.mk "B" (some 0) (some 1) none none none none none) ≤
      get_certification 10 (StudentRow.mk "A" (some 0) (some 1) (some 2) none none none none) :=
  ⟨by decide,
   claim_C8 10 (StudentRow.mk "A" (some 0) (some 1) (some 2) none none none none)
     (StudentRow.mk "B" (some 0) (some 1) none none none none none)
     (by decide) (by decide) (by decide) (by decide)⟩

/-- Claim C9: the visibility boundary is inclusive.  A structured reading
compares its `minimum` sub-value when present, else `prevailing`
(`Option.getD`), divides by 5280 when unit-tagged `FT`, and violates
exactly when the converted value is strictly below the required minimum;
10.0 SM against a required 10.0 is fine, against 10.0001 it is not. -/
theorem claim_C9 (m : Option ℚ) (p req : ℚ) :
    (bad_visibility (Visibility.reading m p "FT") req = true ↔ m.getD p / 5280 < req) ∧
    (bad_visibility (Visibility.reading m p "SM") req = true ↔ m.getD p < req) ∧
    bad_visibility (Visibility.reading none 10 "SM") 10 = false ∧
    bad_visibility (Visibility.reading none 10 "SM") (100001 / 10000) = true := by
  refine ⟨?_, ?_, ?_, ?_⟩
  · cases m <;> simp [bad_visibility, Option.getD]
  · cases m <;> simp [bad_visibility, Option.getD]
  · simp [bad_visibility]
  · simp only [bad_visibility, decide_eq_true_eq]
    rw [if_neg (by decide)]
    norm_num

/-- Witness for C9 at the concrete boundary input of the claim. -/
theorem claim_C9_witness :
    bad_visibility (Visibility.reading none 10 "SM") 10 = false :=
  (claim_C9 none 10 10).2.2.1

/-- Claim C10: on a non-`None` weather reading and a four-element minimums
list, `get_weather_violation` returns one of exactly the five strings
`''`, `'Visibility'`, `'Winds'`, `'Ceiling'`, `'Weather'`; when no
sub-check flags it returns `''` and the implicit-`None` code path is never
taken; a `None` weather reading returns `'Unknown'`. -/
theorem claim_C10 (w : Weather) (mc mv mw mx : ℚ) :
    (∃ s, get_weather_violation (some w) (some [mc, mv, mw, mx]) = Except.ok (some s) ∧
      (s = "" ∨ s = "Visibility" ∨ s = "Winds" ∨ s = "Ceiling" ∨ s = "Weather")) ∧
    (bad_visibility w.visibility mv = false → bad_winds w.wind mw mx = false →
      bad_ceiling w.sky mc = false →
      get_weather_violation (some w) (some [mc, mv, mw, mx]) = Except.ok (some "")) ∧
    (∀ m, get_weather_violation none m = Except.ok (some "Unknown")) := by
  refine ⟨?_, ?_, fun m => rfl⟩
  · cases hv : bad_visibility w.visibility mv <;>
      cases hw : bad_winds w.wind mw mx <;>
        cases hc : bad_ceiling w.sky mc <;>
          simp [get_weather_violation, hv, hw, hc]
  · intro hv hw hc
    simp [get_weather_violation, hv, hw, hc]

/-- Witness for C10: a concrete clear-weather report with every reading
fine yields the empty-string (no-violation) sentinel. -/
theorem claim_C10_witness :
    bad_visibility (Weather.mk (Visibility.reading none 10 "SM") Wind.calm Sky.clear).visibility 5 = false ∧
    get_weather_violation
      (some (Weather.mk (Visibility.reading none 10 "SM") Wind.calm Sky.clear))
      (some [1000, 5, 20, 10]) = Except.ok (some "") :=
  ⟨by decide,
   (claim_C10 (Weather.mk (Visibility.reading none 10 "SM") Wind.calm Sky.clear)
      1000 5 20 10).2.1 (by decide) (by decide) (by decide)⟩

lemma foldl_min_mem (l : List ℚ) (a : ℚ) : l.foldl min a = a ∨ l.foldl min a ∈ l := by
  induction l generalizing a with
  | nil => exact Or.inl rfl
  | cons b t ih =>
    rcases ih (min a b) with h | h
    · rcases min_choice a b with hm | hm
      · exact Or.inl (by rw [List.foldl_cons, h, hm])
      · exact Or.inr (by rw [List.foldl_cons, h, hm]; exact List.mem_cons_self b t)
    · exact Or.inr (List.mem_cons_of_mem b h)

lemma foldl_min_le (l : List ℚ) (a : ℚ) :
    l.foldl min a ≤ a ∧ ∀ b ∈ l, l.foldl min a ≤ b := by
  induction l generalizing a with
  | nil => exact ⟨le_refl a, by simp⟩
  | cons b t ih =>
    have h := ih (min a b)
    refine ⟨le_trans h.1 (min_le_left a b), ?_⟩
    intro c hc
    rcases List.mem_cons.mp hc with rfl | hct
    · exact le_trans h.1 (min_le_right a c)
    · exact h.2 c hct

lemma foldl_max_mem (l : List ℚ) (a : ℚ) : l.foldl max a = a ∨ l.foldl max a ∈ l := by
  induction l generalizing a with
  | nil => exact Or.inl rfl
  | cons b t ih =>
    rcases ih (max a b) with h | h
    · rcases max_choice a b with hm | hm
      · exact Or.inl (by rw [List.foldl_cons, h, hm])
      · exact Or.inr (by rw [List.foldl_cons, h, hm]; exact List.mem_cons_self b t)
    · exact Or.inr (List.mem_cons_of_mem b h)

lemma foldl_max_ge (l : List ℚ) (a : ℚ) :
    a ≤ l.foldl max a ∧ ∀ b ∈ l, b ≤ l.foldl max a := by
  induction l generalizing a with
  | nil => exact ⟨le_refl a, by simp⟩
  | cons b t ih =>
    have h := ih (max a b)
    refine ⟨le_trans (le_max_left a b) h.1, ?_⟩
    intro c hc
    rcases List.mem_cons.mp hc with rfl | hct
    · exact le_trans (le_max_right a c) h.1
    · exact h.2 c hct

lemma get_best_value_min (v : List ℚ) (hv : v ≠ []) :
    get_best_value v false ∈ v ∧ ∀ b ∈ v, get_best_value v false ≤ b := by
  match v with
  | [] => exact absurd rfl hv
  | a :: t =>
    have he : (fun x y : ℚ => if false then max x y else min x y) = min := by
      funext x y; simp
    constructor
    · show t.foldl (fun x y => if false then max x y else min x y) a ∈ a :: t
      rw [he]
      rcases foldl_min_mem t a with h | h
      · rw [h]; exact List.mem_cons_self a t
      · exact List.mem_cons_of_mem a h
    · intro b hb
      show t.foldl (fun x y => if false then max x y else min x y) a ≤ b
      rw [he]
      rcases List.mem_cons.mp hb with rfl | hbt
      · exact (foldl_min_le t b).1
      · exact (foldl_min_le t a).2 b hbt

lemma get_best_value_max (v : List ℚ) (hv : v ≠ []) :
    get_best_value v true ∈ v ∧ ∀ b ∈ v, b ≤ get_best_value v true := by
  match v with
  | [] => exact absurd rfl hv
  | a :: t =>
    have he : (fun x y : ℚ => if true then max x y else min x y) = max := by
      funext x y; simp
    constructor
    · show t.foldl (fun x y => if true then max x y else min x y) a ∈ a :: t
      rw [he]
      rcases foldl_max_mem t a with h | h
      · rw [h]; exact List.mem_cons_self a t
      · exact List.mem_cons_of_mem a h
    · intro b hb
      show b ≤ t.foldl (fun x y => if true then max x y else min x y) a
      rw [he]
      rcases List.mem_cons.mp hb with rfl | hbt
      · exact (foldl_max_ge t b).1
      · exact (foldl_max_ge t a).2 b hbt

/-- Claim C7: `get_minimums` returns `None` exactly when no post-header row
matches on all four of category, conditions, area and time; otherwise it
returns the four-element list consisting of the least matching ceiling,
the least matching visibility, the greatest matching wind and the greatest
matching crosswind (each value taken from a matching row). -/
theorem claim_C7 (cert : ℤ) (area : String) (instructed vfr daytime : Bool)
    (minimums : List MinRow) :
    (get_minimums cert area instructed vfr daytime minimums = none ↔
      (minimums.drop 1).filter (matches_row cert area instructed vfr daytime) = []) ∧
    ((minimums.drop 1).filter (matches_row cert area instructed vfr daytime) ≠ [] →
      ∃ ce vi wi xw,
        get_minimums cert area instructed vfr daytime minimums = some [ce, vi, wi, xw] ∧
        (∃ r, r ∈ (minimums.drop 1).filter (matches_row cert area instructed vfr daytime) ∧
          r.ceiling = ce) ∧
        (∀ r ∈ (minimums.drop 1).filter (matches_row cert area instructed vfr daytime),
          ce ≤ r.ceiling) ∧
        (∃ r, r ∈ (minimums.drop 1).filter (matches_row cert area instructed vfr daytime) ∧
          r.visibility = vi) ∧
        (∀ r ∈ (minimums.drop 1).filter (matches_row cert area instructed vfr daytime),
          vi ≤ r.visibility) ∧
        (∃ r, r ∈ (minimums.drop 1).filter (matches_row cert area instructed vfr daytime) ∧
          r.wind = wi) ∧
        (∀ r ∈ (minimums.drop 1).filter (matches_row cert area instructed vfr daytime),
          r.wind ≤ wi) ∧
        (∃ r, r ∈ (minimums.drop 1).filter (matches_row cert area instructed vfr daytime) ∧
          r.crosswind = xw) ∧
        (∀ r ∈ (minimums.drop 1).filter (matches_row cert area instructed vfr daytime),
          r.crosswind ≤ xw)) := by
  set ms := (minimums.drop 1).filter (matches_row cert area instructed vfr daytime) with hms
  constructor
  · constructor
    · intro h
      by_contra hne
      simp only [get_minimums, ← hms, List.isEmpty_iff] at h
      rw [if_neg hne] at h
      exact Option.some_ne_none _ h
    · intro h
      simp only [get_minimums, ← hms, List.isEmpty_iff]
      rw [if_pos h]
  · intro hne
    have hcc : ms.map (fun r => r.ceiling) ≠ [] := by
      simpa using hne
    have hvv : ms.map (fun r => r.visibility) ≠ [] := by
      simpa using hne
    have hww : ms.map (fun r => r.wind) ≠ [] := by
      simpa using hne
    have hxx : ms.map (fun r => r.crosswind) ≠ [] := by
      simpa using hne
    refine ⟨get_best_value (ms.map (fun r => r.ceiling)) false,
      get_best_value (ms.map (fun r => r.visibility)) false,
      get_best_value (ms.map (fun r => r.wind)) true,
      get_best_value (ms.map (fun r => r.crosswind)) true, ?_, ?_, ?_, ?_, ?_, ?_, ?_, ?_, ?_⟩
    · simp only [get_minimums, ← hms, List.isEmpty_iff]
      rw [if_neg hne]
    · obtain ⟨x, hx, hxe⟩ := List.mem_map.mp (get_best_value_min _ hcc).1
      exact ⟨x, hx, hxe⟩
    · intro r hr
      exact (get_best_value_min _ hcc).2 r.ceiling (List.mem_map.mpr ⟨r, hr, rfl⟩)
    · obtain ⟨x, hx, hxe⟩ := List.mem_map.mp (get_best_value_min _ hvv).1
      exact ⟨x, hx, hxe⟩
    · intro r hr
      exact (get_best_value_min _ hvv).2 r.visibility (List.mem_map.mpr ⟨r, hr, rfl⟩)
    · obtain ⟨x, hx, hxe⟩ := List.mem_map.mp (get_best_value_max _ hww).1
      exact ⟨x, hx, hxe⟩
    · intro r hr
      exact (get_best_value_max _ hww).2 r.wind (List.mem_map.mpr ⟨r, hr, rfl⟩)
    · obtain ⟨x, hx, hxe⟩ := List.mem_map.mp (get_best_value_max _ hxx).1
      exact ⟨x, hx, hxe⟩
    · intro r hr
      exact (get_best_value_max _ hxx).2 r.crosswind (List.mem_map.mpr ⟨r, hr, rfl⟩)

/-- Witness for C7: the two-row table of the source's docstring example
restricted to one matching row; the resolver returns that row's values. -/
theorem claim_C7_witness :
    ((([MinRow.mk "CATEGORY" "CONDITIONS" "AREA" "TIME" 0 0 0 0,
        MinRow.mk "Student" "VMC" "Pattern" "Day" 2000 5 20 8]).drop 1).filter
      (matches_row PILOT_STUDENT "Pattern" false true true) ≠ []) ∧
    get_minimums PILOT_STUDENT "Pattern" false true true
      [MinRow.mk "CATEGORY" "CONDITIONS" "AREA" "TIME" 0 0 0 0,
       MinRow.mk "Student" "VMC" "Pattern" "Day" 2000 5 20 8] = none ↔ False := by
  constructor
  · intro h
    have := (claim_C7 PILOT_STUDENT "Pattern" false true true
      [MinRow.mk "CATEGORY" "CONDITIONS" "AREA" "TIME" 0 0 0 0,
       MinRow.mk "Student" "VMC" "Pattern" "Day" 2000 5 20 8]).1.mp h.2
    revert this
    decide
  · intro h
    exact absurd h id

/-- Claim C1 (code bug): when a lesson's flight context matches no
minimums row (`get_minimums` returns `None`) but a weather report exists,
the scan does NOT label the lesson `'Unknown'`: `get_weather_violation`
first checks only `weather is None`, then unpacks `minimums` into four
variables, so a `None` minimums list with a non-`None` report raises
`TypeError` and aborts `list_weather_violations`.  Concretely: a student
known to the school, a minimums table containing only its header (so no
row matches), and a weather report at the takeoff instant make the whole
scan raise. -/
theorem claim_C1 :
    get_minimums
      (get_certification 0 (StudentRow.mk "S1" (some 0) none none none none none none))
      "Pattern" false true true
      [MinRow.mk "CATEGORY" "CONDITIONS" "AREA" "TIME" 0 0 0 0] = none ∧
    get_weather_violation
      (some (Weather.mk Visibility.unavailable Wind.calm Sky.clear)) none =
      Except.error () ∧
    list_weather_violations
      [StudentRow.mk "S1" (some 0) none none none none none none]
      [MinRow.mk "CATEGORY" "CONDITIONS" "AREA" "TIME" 0 0 0 0]
      [(0, Weather.mk Visibility.unavailable Wind.calm Sky.clear)]
      (fun _ => true)
      [LessonRow.mk "S1" "N1" "" 0 2 "VFR" "Pattern"] = Except.error () := by
  refine ⟨by decide, rfl, ?_⟩
  rfl

lemma replay_error_of_unknown_tail
    (periods : String → Option (List (ℚ × Option ℚ))) (events : List InspEvent) :
    ∀ (ca : String → Option (Option ℚ)) (ch : String → Option ℚ),
    (∃ e ∈ events, ∃ t tk row ld,
      e = InspEvent.lessonEv t tk row ld ∧ periods t = none) →
    replay periods events ca ch = Except.error () := by
  induction events with
  | nil =>
    intro ca ch h
    obtain ⟨e, he, _⟩ := h
    exact absurd he (List.not_mem_nil e)
  | cons ev rest ih =>
    intro ca ch h
    obtain ⟨e0, he0, t, tk, row, ld, heq, hper⟩ := h
    rcases List.mem_cons.mp he0 with rfl | hrest
    · rw [heq]
      simp [replay, hper]
    · have hx : ∃ e ∈ rest, ∃ t tk row ld,
          e = InspEvent.lessonEv t tk row ld ∧ periods t = none :=
        ⟨e0, hrest, t, tk, row, ld, heq, hper⟩
      cases ev with
      | lessonEv t1 tk1 row1 ld1 =>
        cases hp : periods t1 with
        | none => simp [replay, hp]
        | some pds =>
          cases hca : ca t1 with
          | none => simp [replay, hp, hca]
          | some ann =>
            cases hch : ch t1 with
            | none => simp [replay, hp, hca, hch]
            | some hrs =>
              simp only [replay, hp, hca, hch]
              rw [ih _ _ hx]
      | annualEv t1 d1 =>
        simp only [replay]
        exact ih _ _ hx
      | repairEv t1 d1 =>
        simp only [replay]
        exact ih _ _ hx

/-- Counterexample to claim C2: a lesson referencing an aircraft tail that
is not in the fleet table is not skipped by the inspection scan — the
replay loop evaluates `plane_state[tail]` for it, raising `KeyError`, so
the scan aborts instead of producing an output without that lesson. -/
theorem claim_C2_cx :
    list_inspection_violations [LessonRow.mk "S1" "N1" "" 0 2 "VFR" "Pattern"] [] [] =
      Except.error () := rfl

/-- Claim C2 as amended: a lesson whose student id is unknown is skipped
silently by the weather and endorsement scans; a lesson whose aircraft
tail is unknown is skipped silently by the endorsement scan; but the
inspection scan aborts with a `KeyError` on any lesson whose tail is not
in the fleet table (and the weather scan never consults the aircraft at
all, as its parameter list shows). -/
theorem claim_C2_amended :
    (∀ (l : LessonRow) (rest : List LessonRow) (students : List StudentRow)
      (minimums : List MinRow) (weather : List (ℚ × Weather)) (dayF : ℚ → Bool),
      get_for_id l.student students = none →
      list_weather_violations students minimums weather dayF (l :: rest) =
        list_weather_violations students minimums weather dayF rest) ∧
    (∀ (l : LessonRow) (rest : List LessonRow) (students : List StudentRow)
      (instructors : List InstructorRow) (planes : List PlaneRow),
      dict_get (fun s => s.id) l.student students = none ∨
        dict_get (fun p => p.tail) l.plane planes = none →
      list_endorsement_violations students instructors planes (l :: rest) =
        list_endorsement_violations students instructors planes rest) ∧
    (∀ (lessons : List LessonRow) (planes : List PlaneRow)
      (repairs : List RepairRow) (l : LessonRow),
      l ∈ lessons → last_plane l.plane planes = none →
      list_inspection_violations lessons planes repairs = Except.error ()) := by
  refine ⟨?_, ?_, ?_⟩
  · intro l rest students minimums weather dayF h
    simp [list_weather_violations, h]
  · intro l rest students instructors planes h
    rcases h with h | h
    · cases hpl : dict_get (fun p => p.tail) l.plane planes with
      | none => simp [list_endorsement_violations, h, hpl]
      | some pl => simp [list_endorsement_violations, h, hpl]
    · cases hst : dict_get (fun s => s.id) l.student students with
      | none => simp [list_endorsement_violations, h, hst]
      | some st => simp [list_endorsement_violations, h, hst]
  · intro lessons planes repairs l hl h
    simp only [list_inspection_violations]
    apply replay_error_of_unknown_tail
    refine ⟨InspEvent.lessonEv l.plane l.takeoff l l.landing, ?_,
      l.plane, l.takeoff, l, l.landing, rfl, ?_⟩
    · exact (List.perm_insertionSort event_le _).mem_iff.mpr
        (List.mem_append_left _ (List.mem_map.mpr ⟨l, hl, rfl⟩))
    · simp [h]

/-- Witness for C2 (amended) at a concrete input: an empty student table
makes the weather scan skip the lone lesson. -/
theorem claim_C2_witness :
    get_for_id "S1" ([] : List StudentRow) = none ∧
    list_weather_violations [] [] [] (fun _ => true)
      [LessonRow.mk "S1" "N1" "" 0 2 "VFR" "Pattern"] =
      list_weather_violations [] [] [] (fun _ => true) [] :=
  ⟨rfl, claim_C2_amended.1 (LessonRow.mk "S1" "N1" "" 0 2 "VFR" "Pattern")
    [] [] [] [] (fun _ => true) rfl⟩

/-- Counterexample to claim C3: in the endorsement scan, a lesson flagged
by BOTH the endorsement and the IFR sub-checks but not the solo check is
labelled `'Endorsement'`, not the combined `'Credentials'` — the source
only produces `'Credentials'` when `solo and (endorsement or ifr)`.  The
student here has soloed (so no solo flag), flies a multiengine plane alone
without the endorsement, and files IFR in a VFR-only plane. -/
theorem claim_C3_cx :
    bad_endorsement 10 (StudentRow.mk "S1" (some 0) (some 0) none none none none none)
      InstrVal.empty (PlaneRow.mk "N1" "C172RG" "VFR" "No" "Yes" none 0) = true ∧
    bad_ifr 10 (StudentRow.mk "S1" (some 0) (some 0) none none none none none)
      InstrVal.empty (PlaneRow.mk "N1" "C172RG" "VFR" "No" "Yes" none 0) = true ∧
    list_endorsement_violations
      [StudentRow.mk "S1" (some 0) (some 0) none none none none none]
      [] [PlaneRow.mk "N1" "C172RG" "VFR" "No" "Yes" none 0]
      [LessonRow.mk "S1" "N1" "" 10 12 "IFR" "Pattern"] =
      [(LessonRow.mk "S1" "N1" "" 10 12 "IFR" "Pattern", "Endorsement")] := by
  refine ⟨by decide, by decide, by decide⟩

/-- Claim C3 as amended: within one scan, the combined label is used as
follows.  Weather scan: any two (or more) of the visibility/winds/ceiling
sub-checks yield `'Weather'`.  Inspection scan: any two (or more) of the
annual/100-hour/grounded checks yield `'Maintenance'`.  Endorsement scan:
`'Credentials'` appears exactly when the solo flag holds together with at
least one of the endorsement/IFR flags; endorsement and IFR together
without solo yield plain `'Endorsement'`. -/
theorem claim_C3_amended :
    (∀ (w : Weather) (mc mv mw mx : ℚ),
      ((bad_visibility w.visibility mv && bad_winds w.wind mw mx) ||
        (bad_visibility w.visibility mv && bad_ceiling w.sky mc) ||
        (bad_winds w.wind mw mx && bad_ceiling w.sky mc)) = true →
      get_weather_violation (some w) (some [mc, mv, mw, mx]) =
        Except.ok (some "Weather")) ∧
    (∀ (periods : List (ℚ × Option ℚ)) (ann : Option ℚ) (hrs tk ld : ℚ),
      ((annual_check ann tk && hundred_hour_check hrs (ld - tk)) ||
        (annual_check ann tk && grounded_check tk ld periods) ||
        (hundred_hour_check hrs (ld - tk) && grounded_check tk ld periods)) = true →
      (lesson_checks periods ann hrs tk ld).1 = some "Maintenance") ∧
    (∀ e i : Bool, (e || i) = true →
      endorsement_label true e i = some "Credentials") ∧
    (∀ i : Bool, endorsement_label false true i = some "Endorsement") := by
  refine ⟨?_, ?_, ?_, ?_⟩
  · intro w mc mv mw mx h
    cases hv : bad_visibility w.visibility mv <;>
      cases hw : bad_winds w.wind mw mx <;>
        cases hc : bad_ceiling w.sky mc <;>
          simp only [hv, hw, hc, Bool.and_self, Bool.and_false, Bool.false_and,
            Bool.and_true, Bool.true_and, Bool.or_false, Bool.false_or,
            Bool.or_self, Bool.or_true, Bool.true_or, Bool.false_eq_true] at h <;>
          simp [get_weather_violation, hv, hw, hc]
  · intro periods ann hrs tk ld h
    cases ha : annual_check ann tk <;>
      cases hh : hundred_hour_check hrs (ld - tk) <;>
        cases hg : grounded_check tk ld periods <;>
          simp only [ha, hh, hg, Bool.and_self, Bool.and_false, Bool.false_and,
            Bool.and_true, Bool.true_and, Bool.or_false, Bool.false_or,
            Bool.or_self, Bool.or_true, Bool.true_or, Bool.false_eq_true] at h <;>
          simp [lesson_checks, ha, hh, hg]
  · intro e i h
    cases e <;> cases i <;> simp_all [endorsement_label]
  · intro i
    simp [endorsement_label]

/-- Witness for C3 (amended) at a concrete input: endorsement and IFR both
flagged together with solo yield `'Credentials'`. -/
theorem claim_C3_witness :
    (true || true) = true ∧ endorsement_label true true true = some "Credentials" :=
  ⟨rfl, claim_C3_amended.2.2.1 true true rfl⟩

/-- Claim C4: in the replay loop of `list_inspection_violations`, the
100-hour check on a lesson flags iff the hour accumulator is at or over
100 at takeoff or adding the flight's duration (landing − takeoff) pushes
it strictly over 100; landing exactly at 100.0 is compliant; and the
accumulator returned for the post-lesson state is the pre-check value plus
the duration (the checks read the pre-update value).  The last conjunct
records that the lesson goes unlabelled exactly when all three checks,
evaluated against the pre-update state, are clear. -/
theorem claim_C4 (periods : List (ℚ × Option ℚ)) (ann : Option ℚ) (hrs tk ld : ℚ) :
    (lesson_checks periods ann hrs tk ld).2 = hrs + (ld - tk) ∧
    (hundred_hour_check hrs (ld - tk) = true ↔
      (100 ≤ hrs ∨ 100 < hrs + (ld - tk))) ∧
    (hrs < 100 → hrs + (ld - tk) = 100 → hundred_hour_check hrs (ld - tk) = false) ∧
    ((lesson_checks periods ann hrs tk ld).1 = none ↔
      annual_check ann tk = false ∧ hundred_hour_check hrs (ld - tk) = false ∧
        grounded_check tk ld periods = false) := by
  refine ⟨rfl, ?_, ?_, ?_⟩
  · by_cases h : (100 : ℚ) ≤ hrs
    · simp [hundred_hour_check, h]
    · simp only [hundred_hour_check, decide_eq_true_eq, Bool.or_eq_true,
        Bool.and_eq_true]
      constructor
      · rintro (h1 | ⟨h1, h2⟩)
        · exact Or.inl h1
        · exact Or.inr h2
      · rintro (h1 | h1)
        · exact absurd h1 h
        · exact Or.inr ⟨not_le.mp h, h1⟩
  · intro h1 h2
    simp [hundred_hour_check, not_le.mpr (lt_of_lt_of_le h1 le_rfl), h2, not_le.mpr h1]
  · cases ha : annual_check ann tk <;>
      cases hh : hundred_hour_check hrs (ld - tk) <;>
        cases hg : grounded_check tk ld periods <;>
          simp [lesson_checks, ha, hh, hg]

/-- Witness for C4 at the claim's boundary: 95 hours at takeoff plus a
5-hour flight lands exactly at 100.0 and is not flagged. -/
theorem claim_C4_witness :
    (95 : ℚ) < 100 ∧ (95 : ℚ) + ((5 : ℚ) - 0) = 100 ∧
    hundred_hour_check 95 ((5 : ℚ) - 0) = false :=
  ⟨by norm_num, by norm_num,
    (claim_C4 [] none 95 0 5).2.2.1 (by norm_num) (by norm_num)⟩

/-- Claim C5: the grounded check of the inspection replay flags a lesson
against a shop interval exactly when the flight overlaps it under the
source's boundary conventions, which (for a flight with positive duration
and a proper interval) is equivalent to takeoff < interval end and
interval start < landing; in particular takeoff at the interval start and
landing at the interval end are grounded, while a landing exactly at the
interval start (flight entirely before the interval) is not. -/
theorem claim_C5 (tk ld i o : ℚ) (hio : i < o) (htl : tk < ld) :
    (grounded_check tk ld [(i, some o)] = true ↔ (tk < o ∧ i < ld)) ∧
    (tk = i → grounded_check tk ld [(i, some o)] = true) ∧
    (ld = o → grounded_check tk ld [(i, some o)] = true) ∧
    (ld = i → grounded_check tk ld [(i, some o)] = false) := by
  have main : grounded_check tk ld [(i, some o)] = true ↔ (tk < o ∧ i < ld) := by
    simp only [grounded_check, List.any_cons, List.any_nil, Bool.or_false, in_shop,
      Bool.or_eq_true, Bool.and_eq_true, decide_eq_true_eq]
    constructor
    · intro hd
      rcases hd with (⟨h1, h2⟩ | ⟨h1, h2⟩) | ⟨h1, h2⟩
      · exact ⟨h2, lt_of_le_of_lt h1 htl⟩
      · exact ⟨lt_of_lt_of_le htl h2, h1⟩
      · exact ⟨lt_of_le_of_lt h1 hio, lt_of_lt_of_le hio h2⟩
    · rintro ⟨h1, h2⟩
      rcases le_or_lt i tk with h3 | h3
      · exact Or.inl (Or.inl ⟨h3, h1⟩)
      · rcases le_or_lt o ld with h4 | h4
        · exact Or.inr ⟨h3.le, h4⟩
        · exact Or.inl (Or.inr ⟨h2, h4.le⟩)
  refine ⟨main, ?_, ?_, ?_⟩
  · intro h
    refine main.mpr ⟨?_, ?_⟩
    · rw [h]; exact hio
    · rw [← h]; exact htl
  · intro h
    refine main.mpr ⟨?_, ?_⟩
    · rw [← h]; exact htl
    · rw [h]; exact hio
  · intro h
    apply Bool.eq_false_iff.mpr
    intro hg
    have h2 := (main.mp hg).2
    rw [h] at h2
    exact absurd h2 (lt_irrefl i)

/-- Witness for C5 at a concrete boundary input: a takeoff exactly at the
start of the interval [0, 10] is grounded. -/
theorem claim_C5_witness :
    (0 : ℚ) < 10 ∧ (0 : ℚ) < 5 ∧
    grounded_check 0 5 [((0 : ℚ), some (10 : ℚ))] = true :=
  ⟨by norm_num, by norm_num,
    (claim_C5 0 5 0 10 (by norm_num) (by norm_num)).2.1 rfl⟩

/-- Claim C6: the annual check of the inspection replay flags a lesson iff
the whole-day difference (Python `timedelta.days`, a floor) from the
current last-annual date to takeoff strictly exceeds 365; exactly 365 days
is compliant, and a missing annual date never flags.  A repair row whose
description case/space-normalizes to `'annual inspection'` becomes an
annual event, and replaying an annual event resets the plane's
last-annual date to the event date and its hour accumulator to 0 before
the remaining (in sorted order: later) events, hence before every later
lesson of that aircraft. -/
theorem claim_C6 (a tk d : ℚ) (tail : String) (rest : List InspEvent)
    (periods : String → Option (List (ℚ × Option ℚ)))
    (ca : String → Option (Option ℚ)) (ch : String → Option ℚ) (r : RepairRow) :
    (annual_check (some a) tk = true ↔ 365 < python_days (tk - a)) ∧
    (python_days (tk - a) = 365 → annual_check (some a) tk = false) ∧
    annual_check none tk = false ∧
    (py_lower (py_strip r.desc) = "annual inspection" →
      repair_event r = InspEvent.annualEv r.tail r.inDate) ∧
    replay periods (InspEvent.annualEv tail d :: rest) ca ch =
      replay periods rest (fun t => if t = tail then some (some d) else ca t)
        (fun t => if t = tail then some 0 else ch t) := by
  refine ⟨?_, ?_, rfl, ?_, ?_⟩
  · simp [annual_check]
  · intro h
    simp [annual_check, h]
  · intro h
    simp [repair_event, h]
  · rfl

/-- Witness for C6 at the claim's boundary: exactly 365 days (8760 hours)
after the annual date is not flagged. -/
theorem claim_C6_witness :
    python_days ((8760 : ℚ) - 0) = 365 ∧ annual_check (some 0) 8760 = false :=
  ⟨by norm_num [python_days], (claim_C6 0 8760 0 "" []
    (fun _ => none) (fun _ => none) (fun _ => none)
    (RepairRow.mk "" 0 none "")).2.1 (by norm_num [python_days])⟩
